import Mathlib

/-!
Verification of the Decentralization-Readiness-Analyzer engine.

Shallow embedding of the tree-based analyzer (AnalyzerService._runAnalysis in
src/services/analyzer.js, V2), its rule table (src/data/heuristics.js) and the
fetch planner.  JavaScript strings are modelled as lists of characters
(abbrev Str); JavaScript objects become Lean structures; the undefined member
access READINESS_LEVELS.HUMAN_REVIEW is modelled with Option.
-/

set_option maxRecDepth 10000

/-- JavaScript strings are modelled as lists of characters. -/
abbrev Str := List Char

/-- Embed a Lean string literal as a JS string value. -/
def lit (s : String) : Str := s.toList

/-- JS String.prototype.includes: substring containment. -/
def hasSubstr (sub : Str) : Str → Bool
  | [] => sub.isEmpty
  | c :: rest => sub.isPrefixOf (c :: rest) || hasSubstr sub rest

/-- JS String.prototype.replace with a string pattern and empty replacement:
removes the first occurrence of the pattern (used to strip the tree prefix from
a fetched path). -/
def removeFirst (pat : Str) : Str → Str
  | [] => []
  | c :: rest =>
      if pat.isPrefixOf (c :: rest) then (c :: rest).drop pat.length
      else c :: removeFirst pat rest

/-- JS String.prototype.toLowerCase (ASCII-adequate for the patterns used). -/
def lowerStr (s : Str) : Str := s.map Char.toLower

/-- One entry of the flattened repository tree: path plus "file" or "dir". -/
structure TreeEntry where
  path : Str
  type : Str
deriving DecidableEq

/-- Smart unwrapping of a synthetic root directory (analyzer lines 72-83):
if the first tree path contains a slash, the segment up to and including the
first slash is a candidate; it becomes the prefix iff every path starts with it.
Models the source variable pathPrefix. -/
def computePathPfx (tree : List TreeEntry) : Str :=
  match tree with
  | [] => []
  | first :: rest =>
      if '/' ∈ first.path then
        let possiblePfx := first.path.takeWhile (fun c => c ≠ '/') ++ ['/']
        if (first :: rest).all (fun f => possiblePfx.isPrefixOf f.path) then possiblePfx
        else []
      else []

/-- Existence check against the tree map (analyzer lines 86-89). -/
def fileExists (tree : List TreeEntry) (pfx : Str) (path : Str) : Bool :=
  tree.any (fun f => f.path == pfx ++ path && f.type == lit "file")

/-- The nine fixed candidate files checked at the logical root (analyzer lines 146-149). -/
def criticalFiles : List Str :=
  [lit "package.json", lit "requirements.txt", lit "composer.json",
   lit "firebase.json", lit "vercel.json", lit "netlify.toml",
   lit "docker-compose.yml", lit "fly.toml", lit ".env.example"]

/-- Filenames treated as hosting configuration rather than dependency manifests
(analyzer line 155). -/
def hostingConfigFiles : List Str :=
  [lit "firebase.json", lit "vercel.json", lit "netlify.toml", lit "fly.toml",
   lit "docker-compose.yml"]

/-- A planned fetch: logical file name plus the type tag attached when queued. -/
structure FetchItem where
  name : Str
  ftype : Str
deriving DecidableEq

/-- Critical-file fetch plan (analyzer lines 151-160): a candidate is queued when
it exists in the tree, or blindly when the run is rate limited. -/
def criticalPlan (tree : List TreeEntry) (rateLimited : Bool) (pfx : Str) : List FetchItem :=
  (criticalFiles.filter (fun f => fileExists tree pfx f || rateLimited)).map
    (fun f =>
      { name := f,
        ftype := if hostingConfigFiles.contains f then lit "config" else lit "dep" })

/-- Monorepo manifest candidates (analyzer lines 186-189): every package.json in
the tree except the root one, with noise directories filtered out. -/
def pkgJsonCandidates (tree : List TreeEntry) (pfx : Str) : List TreeEntry :=
  ((tree.filter (fun f =>
      (lit "package.json").isSuffixOf f.path && !(f.path == pfx ++ lit "package.json"))).filter
    (fun f =>
      !(hasSubstr (lit "node_modules") f.path) && !(hasSubstr (lit "test") f.path) &&
        !(hasSubstr (lit "example") f.path)))

/-- Monorepo manifest fetch list (analyzer lines 186-190): candidates with the
tree prefix stripped, capped at 15. -/
def pkgJsonPaths (tree : List TreeEntry) (pfx : Str) : List Str :=
  ((pkgJsonCandidates tree pfx).map (fun f => removeFirst pfx f.path)).take 15

/-- Case-insensitive test for the source-file extensions (js, ts, jsx, tsx),
the regex match on analyzer line 199. -/
def hasCodeExt (p : Str) : Bool :=
  let low := lowerStr p
  (lit ".js").isSuffixOf low || (lit ".ts").isSuffixOf low ||
    (lit ".jsx").isSuffixOf low || (lit ".tsx").isSuffixOf low

/-- Source-sample candidates (analyzer lines 198-200): code files outside
node_modules, dist and build. -/
def sourceCandidates (tree : List TreeEntry) : List TreeEntry :=
  (tree.filter (fun f => hasCodeExt f.path)).filter
    (fun f =>
      !(hasSubstr (lit "node_modules") f.path) && !(hasSubstr (lit "dist") f.path) &&
        !(hasSubstr (lit "build") f.path))

/-- Stable comparison used by the source sampler: shorter paths first
(the comparator on analyzer line 201). -/
def byPathLen (a b : TreeEntry) : Prop := a.path.length ≤ b.path.length

instance : DecidableRel byPathLen := fun a b => Nat.decLe a.path.length b.path.length

instance : IsTotal TreeEntry byPathLen := ⟨fun a b => Nat.le_total a.path.length b.path.length⟩

instance : IsTrans TreeEntry byPathLen := ⟨fun _ _ _ h h2 => Nat.le_trans h h2⟩

/-- The source candidates after the stable sort by path length (JS Array.sort is
stable, so it agrees with insertion sort for this total preorder). -/
def sourceSorted (tree : List TreeEntry) : List TreeEntry :=
  (sourceCandidates tree).insertionSort byPathLen

/-- Source-sample fetch list (analyzer lines 198-203): the 20 shortest candidate
paths, prefix stripped. -/
def sourceFiles (tree : List TreeEntry) (pfx : Str) : List Str :=
  ((sourceSorted tree).take 20).map (fun f => removeFirst pfx f.path)

/-- One entry of the static rule table (heuristics.js RISKS values). -/
structure RiskRule where
  id : Str
  category : Str
  riskLevel : Str
  reason : Str
  failureMode : Str
deriving DecidableEq

/-- The static RISKS table of heuristics.js (current version, lines 186-333),
keyed by dependency identifier or synthetic signal identifier. -/
def RISKS (key : Str) : Option RiskRule :=
  if key == lit "GENERIC_NETWORK" then some
    { id := lit "generic-network", category := lit "External Service", riskLevel := lit "Medium",
      reason := lit "Generic HTTP Client detected (fetch/axios).",
      failureMode := lit "Project makes network calls. Centralization unknown without runtime verification." }
  else if key == lit "firebase" then some
    { id := lit "firebase", category := lit "Critical Infrastructure", riskLevel := lit "High",
      reason := lit "Relies on Google-hosted proprietary backend services (Auth/DB/Hosting).",
      failureMode := lit "If Google limits the project or the service goes down, the application completely stops working." }
  else if key == lit "@firebase/app" then some
    { id := lit "firebase", category := lit "Critical Infrastructure", riskLevel := lit "High",
      reason := lit "Core Firebase SDK Detected.",
      failureMode := lit "Centralized backend dependency. Single point of failure." }
  else if key == lit "firebase-tools" then some
    { id := lit "firebase-tools", category := lit "Critical Infrastructure", riskLevel := lit "High",
      reason := lit "Firebase CLI indicates deployment/management via Firebase.",
      failureMode := lit "infra-as-code binding to Firebase." }
  else if key == lit "aws-sdk" then some
    { id := lit "aws-sdk", category := lit "Critical Infrastructure", riskLevel := lit "High",
      reason := lit "Hard dependency on Amazon Web Services.",
      failureMode := lit "Vendor lock-in. Migration requires rewriting core logic." }
  else if key == lit "contentful" then some
    { id := lit "contentful", category := lit "Critical Infrastructure", riskLevel := lit "High",
      reason := lit "Headless CMS hosted by Contentful.",
      failureMode := lit "Content vanishes if API fails or payment stops." }
  else if key == lit "sanity" then some
    { id := lit "sanity", category := lit "Critical Infrastructure", riskLevel := lit "High",
      reason := lit "Headless CMS hosted by Sanity.",
      failureMode := lit "Content dependency. App is a shell without the remote API." }
  else if key == lit "wordpress-core" then some
    { id := lit "wordpress", category := lit "Traditional Server", riskLevel := lit "High",
      reason := lit "Monolithic PHP Server Architecture.",
      failureMode := lit "Single Server (SPoF). If the server crashes, the site is gone." }
  else if key == lit "laravel/framework" then some
    { id := lit "laravel", category := lit "Traditional Server", riskLevel := lit "High",
      reason := lit "PHP Backend Framework.",
      failureMode := lit "Requires always-on trusted server." }
  else if key == lit "django" then some
    { id := lit "django", category := lit "Traditional Server", riskLevel := lit "High",
      reason := lit "Python Backend Framework.",
      failureMode := lit "Centralized logic/database. Not distributed." }
  else if key == lit "express" then some
    { id := lit "express", category := lit "Traditional Server", riskLevel := lit "High",
      reason := lit "Node.js Backend Framework.",
      failureMode := lit "Implies a centralized server API." }
  else if key == lit "vercel.json" then some
    { id := lit "vercel", category := lit "Hosting Dependency", riskLevel := lit "Medium",
      reason := lit "Optimized for Vercel Cloud Platform.",
      failureMode := lit "Project likely relies on Vercel-specific serverless functions. (Check if Dev-Only)" }
  else if key == lit "netlify.toml" then some
    { id := lit "netlify", category := lit "Hosting Dependency", riskLevel := lit "Medium",
      reason := lit "Optimized for Netlify Cloud Platform.",
      failureMode := lit "Project likely relies on Netlify-specific redirects/forms. (Check if Dev-Only)" }
  else if key == lit "docker-compose.yml" then some
    { id := lit "docker", category := lit "Infrastructure Config", riskLevel := lit "Medium",
      reason := lit "Docker Orchestration Config.",
      failureMode := lit "Implies complex server requirements. May be Dev-Only, but verification required." }
  else if key == lit "@auth0/auth0-react" then some
    { id := lit "auth0", category := lit "Identity Dependency", riskLevel := lit "High",
      reason := lit "Identity as a Service (Auth0).",
      failureMode := lit "Users cannot log in if Auth0 is down. Identity data is not owned by the user." }
  else if key == lit "@clerk/clerk-react" then some
    { id := lit "clerk", category := lit "Identity Dependency", riskLevel := lit "High",
      reason := lit "Proprietary Auth Provider.",
      failureMode := lit "User identity siloed in Clerk servers." }
  else if key == lit "@supabase/supabase-js" then some
    { id := lit "supabase", category := lit "Data Dependency", riskLevel := lit "Medium",
      reason := lit "Supabase (Managed Postgres/Auth).",
      failureMode := lit "While open-source compatible, usually deployed as a hosted monolith. Migration is easier than Firebase but still non-trivial." }
  else if key == lit "react-ga" then some
    { id := lit "analytics", category := lit "Operational", riskLevel := lit "Medium",
      reason := lit "Google Analytics.",
      failureMode := lit "Privacy leak. Does not usually break core app functionality if blocked." }
  else if key == lit "mixpanel-browser" then some
    { id := lit "analytics", category := lit "Operational", riskLevel := lit "Medium",
      reason := lit "Mixpanel Tracking.",
      failureMode := lit "User surveillance. Non-critical for uptime." }
  else none

/-- One readiness level record (heuristics.js READINESS_LEVELS values). -/
structure Level where
  label : Str
  color : Str
  desc : Str
  verdict : Str
deriving DecidableEq

/-- The READINESS_LEVELS object of heuristics.js (lines 335-360).  It defines
exactly the keys HIGH, MEDIUM, LOW and UNKNOWN; any other member access
(in particular HUMAN_REVIEW) yields JS undefined, modelled as none. -/
def READINESS_LEVELS (key : String) : Option Level :=
  if key = "HIGH" then some
    { label := lit "HIGH READINESS", color := lit "var(--accent-primary)",
      desc := lit "System is designed to run independently. No obvious single points of control/failure found in dependencies.",
      verdict := lit "Decentralized / Self-Sufficient" }
  else if key = "MEDIUM" then some
    { label := lit "MEDIUM READINESS", color := lit "var(--accent-warn)",
      desc := lit "System works but has some centralized dependencies (Analytics, Optional APIs) or partial vendor lock-in.",
      verdict := lit "Hybrid / Partial Dependencies" }
  else if key = "LOW" then some
    { label := lit "LOW READINESS", color := lit "var(--accent-risk)",
      desc := lit "System is architected around centralized control (Cloud DB, Auth Provider, Monolithic Server). It cannot function without specific vendors.",
      verdict := lit "Centralized / Fragile" }
  else if key = "UNKNOWN" then some
    { label := lit "MANUAL REVIEW REQUIRED", color := lit "var(--text-secondary)",
      desc := lit "No strong signals found. Does not use standard recognized decentralized or centralized patterns.",
      verdict := lit "Unknown" }
  else none

/-- The fixed offline-capability vocabulary of heuristics.js (lines 179-184). -/
structure OfflineVocab where
  PERSISTENCE : List Str
  CACHING : List Str
  INTENT : List Str
  NATIVE : List Str

def OFFLINE_SIGNALS : OfflineVocab :=
  { PERSISTENCE := [lit "indexedDB", lit "idb", lit "localforage", lit "dexie", lit "rxdb",
      lit "pouchdb", lit "watermelondb", lit "sqlite-wasm", lit "absurd-sql"],
    CACHING := [lit "serviceWorker", lit "sw-precache", lit "workbox", lit "vite-plugin-pwa",
      lit "next-pwa", lit "caches.open"],
    INTENT := [lit "navigator.onLine", lit "window.addEventListener(\"offline\")",
      lit "backgroundSync", lit "periodicSync"],
    NATIVE := [lit "tauri", lit "electron-store", lit "react-native-fs", lit "capacitor",
      lit "cordova"] }

/-- JS regex whitespace class, restricted to the ASCII members that can occur here. -/
def isJsSpace (c : Char) : Bool :=
  c == ' ' || c == '\t' || c == '\n' || c == '\r' || c == Char.ofNat 11 || c == Char.ofNat 12

/-- Length of the leading whitespace run (for the s-star parts of the patterns). -/
def wsCount (s : Str) : Nat := (s.takeWhile isJsSpace).length

/-- Matcher for the generic-network regex fetch-s-star-paren or axios followed by
dot, at-sign or s-star-paren (analyzer line 245), case-insensitive; returns the
match length at the given index of the lowercased text. -/
def matchGenericAt (low : Str) (i : Nat) : Option Nat :=
  let r := low.drop i
  let alt1 : Option Nat :=
    if (lit "fetch").isPrefixOf r then
      let after := r.drop 5
      let w := wsCount after
      if (after.drop w).head? == some '(' then some (6 + w) else none
    else none
  let alt2 : Option Nat :=
    if (lit "axios").isPrefixOf r then
      let after := r.drop 5
      match after.head? with
      | some c =>
          if c == '.' || c == '@' then some 6
          else
            let w := wsCount after
            if (after.drop w).head? == some '(' then some (6 + w) else none
      | none => none
    else none
  alt1 <|> alt2

/-- Matcher for an alternation of literal words, case-insensitive (the offline
and hardcoded-hostname regexes are alternations of literals). -/
def matchAnyLitAt (lits : List Str) (low : Str) (i : Nat) : Option Nat :=
  lits.findSome? (fun p => if p.isPrefixOf (low.drop i) then some p.length else none)

/-- Matcher for the INTENT regex (analyzer line 264): navigator.onLine, or
addEventListener(quote offline quote), or backgroundSync; case-insensitive. -/
def matchIntentAt (low : Str) (i : Nat) : Option Nat :=
  let r := low.drop i
  let alt1 : Option Nat := if (lit "navigator.online").isPrefixOf r then some 16 else none
  let alt2 : Option Nat :=
    if (lit "addeventlistener(").isPrefixOf r then
      match (r.drop 17).head? with
      | some q =>
          if (q == Char.ofNat 39 || q == Char.ofNat 34) &&
              (lit "offline").isPrefixOf (r.drop 18) then
            match (r.drop 25).head? with
            | some q2 =>
                if (q2 == Char.ofNat 39 || q2 == Char.ofNat 34) &&
                    ((r.drop 26).head? == some ')') then some 27
                else none
            | none => none
          else none
      | none => none
    else none
  let alt3 : Option Nat := if (lit "backgroundsync").isPrefixOf r then some 14 else none
  alt1 <|> alt2 <|> alt3

/-- Repeated exec of a global regex: collect (index, length) of each match,
resuming the scan right after every match, as the while-exec loops do. -/
def scanAux (matchAt : Str → Nat → Option Nat) (low : Str) : Nat → Nat → List (Nat × Nat)
  | _, 0 => []
  | i, Nat.succ fuel =>
      if i < low.length then
        match matchAt low i with
        | some len => (i, len) :: scanAux matchAt low (i + len) fuel
        | none => scanAux matchAt low (i + 1) fuel
      else []

/-- All matches of a case-insensitive global pattern in a file content. -/
def scanAll (matchAt : Str → Nat → Option Nat) (content : Str) : List (Nat × Nat) :=
  scanAux matchAt (lowerStr content) 0 (content.length + 1)

/-- 1-based line number of a match offset (analyzer lines 213-215): the number of
newline-separated pieces of the text before the match. -/
def getLineNumber (fullText : Str) (index : Nat) : Nat :=
  ((fullText.take index).filter (fun c => c == '\n')).length + 1

/-- Parsed JSON value (the result of JSON.parse). -/
inductive JVal where
  | jnull : JVal
  | jbool : Bool → JVal
  | jnum : Str → JVal
  | jstr : Str → JVal
  | jarr : List JVal → JVal
  | jobj : List (Str × JVal) → JVal

/-- JSON whitespace. -/
def jsonWs (c : Char) : Bool := c == ' ' || c == '\t' || c == '\n' || c == '\r'

def skipWs (s : Str) : Str := s.dropWhile jsonWs

/-- Hex digit value. -/
def parseHex (c : Char) : Option Nat :=
  if c.isDigit then some (c.toNat - 48)
  else if 97 ≤ c.toNat && c.toNat ≤ 102 then some (c.toNat - 87)
  else if 65 ≤ c.toNat && c.toNat ≤ 70 then some (c.toNat - 55)
  else none

/-- Body of a JSON string after the opening quote: returns the decoded content
and the remainder after the closing quote. -/
def parseStrBody : Nat → Str → Option (Str × Str)
  | 0, _ => none
  | Nat.succ fuel, s =>
    match s with
    | [] => none
    | c :: rest =>
      if c == Char.ofNat 34 then some ([], rest)
      else if c == '\\' then
        match rest with
        | [] => none
        | e :: rest2 =>
          let dec : Option (Char × Str) :=
            if e == Char.ofNat 34 then some (Char.ofNat 34, rest2)
            else if e == '\\' then some ('\\', rest2)
            else if e == '/' then some ('/', rest2)
            else if e == 'b' then some (Char.ofNat 8, rest2)
            else if e == 'f' then some (Char.ofNat 12, rest2)
            else if e == 'n' then some ('\n', rest2)
            else if e == 'r' then some ('\r', rest2)
            else if e == 't' then some ('\t', rest2)
            else if e == 'u' then
              match rest2 with
              | h1 :: h2 :: h3 :: h4 :: rest3 =>
                match parseHex h1, parseHex h2, parseHex h3, parseHex h4 with
                | some a, some b, some c2, some d =>
                    some (Char.ofNat (((a * 16 + b) * 16 + c2) * 16 + d), rest3)
                | _, _, _, _ => none
              | _ => none
            else none
          match dec with
          | some (ch, r) =>
            match parseStrBody fuel r with
            | some (tail, r2) => some (ch :: tail, r2)
            | none => none
          | none => none
      else if c.toNat < 32 then none
      else
        match parseStrBody fuel rest with
        | some (tail, r2) => some (c :: tail, r2)
        | none => none

def digitRun (s : Str) : Str × Str := (s.takeWhile Char.isDigit, s.dropWhile Char.isDigit)

/-- JSON number lexeme. -/
def parseNum (s : Str) : Option (Str × Str) :=
  let signed : Str × Str :=
    match s with
    | c :: r => if c == '-' then ([c], r) else ([], s)
    | [] => ([], s)
  let sgn := signed.1
  let s1 := signed.2
  let ipair := digitRun s1
  let ip := ipair.1
  let r1 := ipair.2
  if ip.isEmpty then none
  else if ip.length > 1 && ip.head? == some '0' then none
  else
    let frac : Option (Str × Str) :=
      match r1 with
      | '.' :: r =>
          let d := digitRun r
          if d.1.isEmpty then none else some ('.' :: d.1, d.2)
      | _ => some ([], r1)
    match frac with
    | none => none
    | some (fp, r2) =>
      let expo : Option (Str × Str) :=
        match r2 with
        | c :: r =>
          if c == 'e' || c == 'E' then
            let sgn2 : Str × Str :=
              match r with
              | c2 :: r3 => if c2 == '+' || c2 == '-' then ([c2], r3) else ([], r)
              | [] => ([], r)
            let d := digitRun sgn2.2
            if d.1.isEmpty then none else some (c :: sgn2.1 ++ d.1, d.2)
          else some ([], r2)
        | [] => some ([], r2)
      match expo with
      | none => none
      | some (ep, r3) => some (sgn ++ ip ++ fp ++ ep, r3)

mutual

/-- Recursive-descent JSON value parser with fuel. -/
def parseVal : Nat → Str → Option (JVal × Str)
  | 0, _ => none
  | Nat.succ fuel, s0 =>
    let s := skipWs s0
    match s with
    | [] => none
    | c :: rest =>
      if c == Char.ofNat 34 then
        match parseStrBody (rest.length + 1) rest with
        | some (str, r) => some (JVal.jstr str, r)
        | none => none
      else if c == Char.ofNat 123 then
        let s2 := skipWs rest
        match s2 with
        | c2 :: r2 => if c2 == Char.ofNat 125 then some (JVal.jobj [], r2)
            else
              match parseMembers fuel rest [] with
              | some (fs, r3) => some (JVal.jobj fs, r3)
              | none => none
        | [] => none
      else if c == '[' then
        let s2 := skipWs rest
        match s2 with
        | c2 :: r2 => if c2 == ']' then some (JVal.jarr [], r2)
            else
              match parseElems fuel rest [] with
              | some (xs, r3) => some (JVal.jarr xs, r3)
              | none => none
        | [] => none
      else if (lit "true").isPrefixOf s then some (JVal.jbool true, s.drop 4)
      else if (lit "false").isPrefixOf s then some (JVal.jbool false, s.drop 5)
      else if (lit "null").isPrefixOf s then some (JVal.jnull, s.drop 4)
      else
        match parseNum s with
        | some (lx, r) => some (JVal.jnum lx, r)
        | none => none

/-- Members of a JSON object after the opening brace. -/
def parseMembers : Nat → Str → List (Str × JVal) → Option (List (Str × JVal) × Str)
  | 0, _, _ => none
  | Nat.succ fuel, s0, acc =>
    let s := skipWs s0
    match s with
    | c :: rest =>
      if c == Char.ofNat 34 then
        match parseStrBody (rest.length + 1) rest with
        | some (key, r1) =>
          match skipWs r1 with
          | ':' :: r3 =>
            match parseVal fuel r3 with
            | some (v, r4) =>
              match skipWs r4 with
              | ',' :: r6 => parseMembers fuel r6 (acc ++ [(key, v)])
              | c2 :: r7 =>
                  if c2 == Char.ofNat 125 then some (acc ++ [(key, v)], r7) else none
              | [] => none
            | none => none
          | _ => none
        | none => none
      else none
    | [] => none

/-- Elements of a JSON array after the opening bracket. -/
def parseElems : Nat → Str → List JVal → Option (List JVal × Str)
  | 0, _, _ => none
  | Nat.succ fuel, s0, acc =>
    match parseVal fuel s0 with
    | some (v, r1) =>
      match skipWs r1 with
      | ',' :: r2 => parseElems fuel r2 (acc ++ [v])
      | c :: r3 => if c == ']' then some (acc ++ [v], r3) else none
      | [] => none
    | none => none

end

/-- JSON.parse: whole-input parse, rejecting trailing garbage; failure is none
(the analyzer catches the exception and skips the manifest). -/
def JSON_parse (s : Str) : Option JVal :=
  match parseVal (2 * s.length + 8) s with
  | some (v, rest) => if (skipWs rest).isEmpty then some v else none
  | none => none

/-- JS member access pkg.field on a parsed JSON value: undefined (none) unless
the value is an object having the key; with duplicate keys the last value wins. -/
def jget (v : JVal) (k : Str) : Option JVal :=
  match v with
  | JVal.jobj fs => ((fs.filter (fun kv => kv.1 == k)).getLast?).map (fun kv => kv.2)
  | _ => none

/-- Object key list in first-occurrence order (JS Object.keys after JSON.parse). -/
def dedupKeys (ks : List Str) : List Str :=
  ks.foldl (fun acc k => if acc.contains k then acc else acc ++ [k]) []

/-- Keys contributed by an object-literal spread of a possibly-undefined value. -/
def spreadKeys (v : Option JVal) : List Str :=
  match v with
  | none => []
  | some (JVal.jobj fs) => dedupKeys (fs.map (fun kv => kv.1))
  | some (JVal.jstr s) => (List.range s.length).map (fun i => Nat.toDigits 10 i)
  | some (JVal.jarr xs) => (List.range xs.length).map (fun i => Nat.toDigits 10 i)
  | some _ => []

/-- Keys of the merged dependencies and devDependencies objects
(analyzer line 225): dependency keys first, then the new devDependency keys. -/
def mergedDepKeys (pkg : JVal) : List Str :=
  dedupKeys (spreadKeys (jget pkg (lit "dependencies")) ++
    spreadKeys (jget pkg (lit "devDependencies")))

def hexDigitChar (n : Nat) : Char :=
  if n < 10 then Char.ofNat (48 + n) else Char.ofNat (87 + n)

/-- JSON string escaping for JSON.stringify. -/
def escC (c : Char) : Str :=
  if c == Char.ofNat 34 then ['\\', Char.ofNat 34]
  else if c == '\\' then ['\\', '\\']
  else if c == '\n' then ['\\', 'n']
  else if c == '\r' then ['\\', 'r']
  else if c == '\t' then ['\\', 't']
  else if c == Char.ofNat 8 then ['\\', 'b']
  else if c == Char.ofNat 12 then ['\\', 'f']
  else if c.toNat < 32 then ['\\', 'u', '0', '0'] ++
    [hexDigitChar (c.toNat / 16), hexDigitChar (c.toNat % 16)]
  else [c]

def joinComma (xs : List Str) : Str := (xs.intersperse [',']).flatten

mutual

/-- JSON.stringify (numbers keep their parsed lexeme; only substring containment
of the result is consumed downstream). -/
def stringify : JVal → Str
  | JVal.jnull => lit "null"
  | JVal.jbool true => lit "true"
  | JVal.jbool false => lit "false"
  | JVal.jnum lx => lx
  | JVal.jstr s => [Char.ofNat 34] ++ (s.map escC).flatten ++ [Char.ofNat 34]
  | JVal.jarr xs => ['['] ++ joinComma (stringifyList xs) ++ [']']
  | JVal.jobj fs => [Char.ofNat 123] ++ joinComma (stringifyFields fs) ++ [Char.ofNat 125]

def stringifyList : List JVal → List Str
  | [] => []
  | x :: xs => stringify x :: stringifyList xs

def stringifyFields : List (Str × JVal) → List Str
  | [] => []
  | kv :: fs =>
      ([Char.ofNat 34] ++ (kv.1.map escC).flatten ++ [Char.ofNat 34] ++ [':'] ++
        stringify kv.2) :: stringifyFields fs

end

/-- JS truthiness of a parsed JSON value (the if-pkg.scripts guard). -/
def jsTruthy : JVal → Bool
  | JVal.jnull => false
  | JVal.jbool b => b
  | JVal.jstr s => !s.isEmpty
  | JVal.jnum lx =>
      !(((lx.takeWhile (fun c => !(c == 'e' || c == 'E'))).filter Char.isDigit).all
        (fun c => c == '0'))
  | JVal.jarr _ => true
  | JVal.jobj _ => true

/-- A raw signal pushed by the extractors (fileSignals / configSignals entries). -/
structure Sig where
  signal : Str
  risk : Str
  category : Str
  reason : Str
  file : Str
  line : Option Nat
deriving DecidableEq

/-- An offline-capability signal (offlineSignals entries). -/
structure OffSig where
  file : Str
  category : Str
  signal : Str
  line : Option Nat
deriving DecidableEq

/-- One Evidence item of the final report (a findings entry).  The dep findings
carry no file or line; the JS string line value N/A of the ambiguity item is
modelled as none. -/
structure Finding where
  source : Str
  signal : Str
  risk : Str
  category : Str
  failureMode : Str
  file : Option Str
  line : Option Nat
deriving DecidableEq

/-- Mutable accumulation state of one run: the allDeps insertion-ordered set and
the three signal lists. -/
structure ScanState where
  allDeps : List Str
  fileSignals : List Sig
  offlineSignals : List OffSig
  configSignals : List Sig

/-- JS Set.add: append only when not yet present (insertion order preserved). -/
def addDep (st : ScanState) (d : Str) : ScanState :=
  if st.allDeps.contains d then st else { st with allDeps := st.allDeps ++ [d] }

/-- One structural path-pattern hint (analyzer lines 164-170). -/
structure StructCheck where
  test : Str → Bool
  signal : Str
  id : Str

def structureChecks : List StructCheck :=
  [{ test := fun p => (lit "manage.py").isSuffixOf p, signal := lit "Django Backend",
      id := lit "django" },
   { test := fun p => hasSubstr (lit "wp-admin") p, signal := lit "WordPress",
      id := lit "wordpress" },
   { test := fun p => hasSubstr (lit "Gemfile") p, signal := lit "Ruby/Rails",
      id := lit "ruby" },
   { test := fun p => (lit ".sol").isSuffixOf p, signal := lit "Smart Contracts (Solidity)",
      id := lit "solidity" },
   { test := fun p => (lit "Cargo.toml").isSuffixOf p, signal := lit "Rust/Cargo",
      id := lit "rust" }]

def applyCheck (path : Str) (st : ScanState) (c : StructCheck) : ScanState :=
  if c.test path && !(st.allDeps.contains c.id) then
    { st with
      allDeps := st.allDeps ++ [c.id]
      fileSignals := st.fileSignals ++
        [{ signal := c.signal, risk := lit "Medium", category := lit "Structure",
           reason := lit "Found " ++ path, file := path, line := none }] }
  else st

/-- Structure-hint pass over the whole tree (analyzer lines 172-182). -/
def structScan (tree : List TreeEntry) (st : ScanState) : ScanState :=
  tree.foldl (fun s node => structureChecks.foldl (fun s2 c => applyCheck node.path s2 c) s) st

/-- Manifest part of result processing (analyzer lines 221-233): merge the
parsed dependency keys into the set and check the scripts for a native shell. -/
def processDepPart (st : ScanState) (name ftype content : Str) : ScanState :=
  if (ftype == lit "dep" || ftype == lit "monorepo-dep") && (lit "json").isSuffixOf name then
    match JSON_parse content with
    | some pkg =>
      let st2 := (mergedDepKeys pkg).foldl addDep st
      match jget pkg (lit "scripts") with
      | some scr =>
        if jsTruthy scr then
          let scriptStr := lowerStr (stringify scr)
          if hasSubstr (lit "tauri") scriptStr || hasSubstr (lit "electron") scriptStr then
            addDep st2 (lit "OFFLINE_NATIVE")
          else st2
        else st2
      | none => st2
    | none => st
  else st

/-- Config part of result processing (analyzer lines 236-240). -/
def processConfigPart (st : ScanState) (name ftype : Str) : ScanState :=
  if ftype == lit "config" then
    let st2 := { st with configSignals := st.configSignals ++
      [{ file := name, signal := lit "Config: " ++ name, risk := lit "Medium",
         category := lit "Hosting", reason := lit "Platform Specific", line := none }] }
    let st3 := if hasSubstr (lit "firebase") name then addDep st2 (lit "firebase-tools") else st2
    if hasSubstr (lit "vercel") name then addDep st3 (lit "vercel.json") else st3
  else st

/-- Code-scan part of result processing (analyzer lines 243-299). -/
def processCodePart (st : ScanState) (name ftype content : Str) : ScanState :=
  if ftype == lit "code-scan" then
    let st := (scanAll matchGenericAt content).foldl (fun st2 m =>
      let st2 := { st2 with fileSignals := st2.fileSignals ++
        [{ signal := lit "Generic Network Call", risk := lit "Medium",
           category := lit "External Service", reason := lit "Usage in " ++ name,
           file := name, line := some (getLineNumber content m.1) }] }
      addDep st2 (lit "GENERIC_NETWORK")) st
    let offPats : List (Str × (Str → Nat → Option Nat)) :=
      [(lit "PERSISTENCE", matchAnyLitAt [lit "indexeddb", lit "localforage", lit "dexie",
          lit "rxdb", lit "pouchdb", lit "watermelondb"]),
       (lit "CACHING", matchAnyLitAt [lit "navigator.serviceworker", lit "caches.open",
          lit "workbox", lit "sw-precache"]),
       (lit "INTENT", matchIntentAt),
       (lit "NATIVE", matchAnyLitAt [lit "tauri", lit "electron-store",
          lit "react-native-fs", lit "capacitor"])]
    let st := offPats.foldl (fun st2 op =>
      (scanAll op.2 content).foldl (fun st3 m =>
        let st3 := addDep st3 (lit "OFFLINE_" ++ op.1)
        { st3 with offlineSignals := st3.offlineSignals ++
          [{ file := name, category := op.1,
             signal := lit "Detected " ++ ((content.drop m.1).take m.2),
             line := some (getLineNumber content m.1) }] }) st2) st
    let codeRisks : List (Str × Str) :=
      [(lit "firebaseio.com", lit "Firebase API"),
       (lit "googleapis.com", lit "Google API"),
       (lit "supabase.co", lit "Supabase API")]
    codeRisks.foldl (fun st2 cr =>
      (scanAll (matchAnyLitAt [cr.1]) content).foldl (fun st3 m =>
        { st3 with fileSignals := st3.fileSignals ++
          [{ signal := cr.2, risk := lit "Medium", category := lit "Hardcoded API",
             reason := lit "Found in " ++ name, file := name,
             line := some (getLineNumber content m.1) }] }) st2) st
  else st

/-- Processing of one settled fetch result (analyzer lines 217-302): the three
parts in source order. -/
def processItem (st : ScanState) (name ftype content : Str) : ScanState :=
  processCodePart (processConfigPart (processDepPart st name ftype content) name ftype)
    name ftype content

/-- The offline signal tally of the run (analyzer lines 338-342; V2 has no
intent component). -/
structure OffStats where
  persistence : Bool
  caching : Bool
  native : Bool
deriving DecidableEq

def computeOffStats (offlineSignals : List OffSig) (allDeps : List Str) : OffStats :=
  { persistence := offlineSignals.any (fun s => s.category == lit "PERSISTENCE") ||
      allDeps.any (fun d => OFFLINE_SIGNALS.PERSISTENCE.contains d),
    caching := offlineSignals.any (fun s => s.category == lit "CACHING") ||
      allDeps.any (fun d => OFFLINE_SIGNALS.CACHING.contains d),
    native := offlineSignals.any (fun s => s.category == lit "NATIVE") ||
      allDeps.any (fun d => OFFLINE_SIGNALS.NATIVE.contains d) }

/-- Conversion of a raw signal into an Evidence item with the given source tag. -/
def sigToFinding (source : Str) (s : Sig) : Finding :=
  { source := source, signal := s.signal, risk := s.risk, category := s.category,
    failureMode := s.reason, file := some s.file, line := s.line }

/-- The Evidence item a rule-table hit contributes for a dependency identifier. -/
def mkDepFinding (dep : Str) (rule : RiskRule) : Finding :=
  { source := lit "Dependency", signal := lit "Dep: " ++ dep, risk := rule.riskLevel,
    category := rule.category, failureMode := rule.failureMode,
    file := none, line := none }

/-- Evidence items contributed by the dependency set through the rule table
(analyzer lines 322-329); unmatched identifiers are silently dropped. -/
def depFindings (allDeps : List Str) : List Finding :=
  allDeps.filterMap (fun dep => (RISKS dep).map (mkDepFinding dep))

/-- The findings list (analyzer lines 306-331): file signals, then config
signals, then dependency matches. -/
def buildFindings (fileSignals configSignals : List Sig) (allDeps : List Str) : List Finding :=
  fileSignals.map (sigToFinding (lit "Code/Structure")) ++
    configSignals.map (sigToFinding (lit "Config")) ++ depFindings allDeps

/-- High-risk tallies per accumulation loop (analyzer lines 310-329). -/
def fileHighCount (fs : List Sig) : Nat :=
  (fs.filter (fun s => s.risk == lit "High")).length

/-- Medium tally of the file-signal loop: Generic Network Call entries are
excluded because they are handled by the dedicated ambiguity branch. -/
def fileMediumCount (fs : List Sig) : Nat :=
  (fs.filter (fun s => s.risk == lit "Medium" &&
    !(s.signal == lit "Generic Network Call"))).length

def configHighCount (cs : List Sig) : Nat :=
  (cs.filter (fun s => s.risk == lit "High")).length

def configMediumCount (cs : List Sig) : Nat :=
  (cs.filter (fun s => s.risk == lit "Medium")).length

def depHighCount (allDeps : List Str) : Nat :=
  ((depFindings allDeps).filter (fun f => f.risk == lit "High")).length

def depMediumCount (allDeps : List Str) : Nat :=
  ((depFindings allDeps).filter (fun f => f.risk == lit "Medium")).length

def highRiskCount (fs cs : List Sig) (allDeps : List Str) : Nat :=
  fileHighCount fs + configHighCount cs + depHighCount allDeps

def mediumRiskCount (fs cs : List Sig) (allDeps : List Str) : Nat :=
  fileMediumCount fs + configMediumCount cs + depMediumCount allDeps

/-- The explicit Analyzer-sourced hint appended by the ambiguity branch
(analyzer lines 402-410). -/
def ambiguityFinding : Finding :=
  { source := lit "Analyzer", signal := lit "Ambiguity", risk := lit "Medium",
    category := lit "Ambiguity",
    failureMode := lit "Generic network usage (fetch/axios) without identified endpoint.",
    file := some (lit "Multiple"), line := none }

/-- Outcome of the readiness verdict block. -/
structure Decision where
  score : Option Level
  architecture : Str
  extraEvidence : List Finding
deriving DecidableEq

/-- The readiness verdict block (analyzer lines 368-421), exactly as ordered in
the source.  The HUMAN_REVIEW member access on READINESS_LEVELS yields none
(JS undefined) because the object defines no such key. -/
def readinessDecision (highCnt mediumCnt : Nat) (hasGenericNetwork hasOfflineLib : Bool)
    (allDepsSize : Nat) (persistence : Bool) : Decision :=
  if highCnt > 0 then
    { score := READINESS_LEVELS "LOW", architecture := lit "Centralized / Server-Required",
      extraEvidence := [] }
  else if mediumCnt > 0 then
    { score := READINESS_LEVELS "MEDIUM", architecture := lit "Hybrid (Client + Services)",
      extraEvidence := [] }
  else if hasGenericNetwork then
    if hasOfflineLib then
      { score := READINESS_LEVELS "HIGH",
        architecture := lit "Decentralized / Local-First (with Sync)", extraEvidence := [] }
    else
      { score := READINESS_LEVELS "HUMAN_REVIEW",
        architecture := lit "Ambiguous (Unidentified Network Calls)",
        extraEvidence := [ambiguityFinding] }
  else if allDepsSize > 0 || persistence then
    { score := READINESS_LEVELS "HIGH", architecture := lit "Decentralized / Client-Side",
      extraEvidence := [] }
  else
    { score := READINESS_LEVELS "UNKNOWN", architecture := lit "Unknown / Static",
      extraEvidence := [] }

/-- The offline-capability block (analyzer lines 344-363). -/
def offlineDecision (findings : List Finding) (offStats : OffStats) : Str × Str :=
  let hasCloudBlocker := findings.any (fun f =>
    f.category == lit "Critical Infrastructure" || f.risk == lit "High")
  if hasCloudBlocker then
    (lit "Online-Only", lit "Critical Cloud Dependencies prevent offline use.")
  else if offStats.persistence then
    (lit "Offline-Capable", lit "Strong Local Persistence detected (Offline First).")
  else if offStats.caching || offStats.native then
    (lit "Partially Offline", lit "Caching or Native Shell detected, but no deep data persistence.")
  else
    (lit "Online-Only", lit "No persistence or caching strategy found.")

structure OfflineResult where
  status : Str
  reason : Str
  evidence : List OffSig
deriving DecidableEq

/-- Everything the verdict stage contributes to the report. -/
structure ClassifyOut where
  evidence : List Finding
  score : Option Level
  architecture : Str
  offline : OfflineResult
deriving DecidableEq

/-- The verdict stage (analyzer lines 305-424): builds the findings, the offline
tier and the readiness verdict from the accumulated signals and dependency set. -/
def classifyCore (fileSignals configSignals : List Sig) (allDeps : List Str)
    (offlineSignals : List OffSig) : ClassifyOut :=
  let findings := buildFindings fileSignals configSignals allDeps
  let offStats := computeOffStats offlineSignals allDeps
  let offPair := offlineDecision findings offStats
  let hasGenericNetwork := allDeps.contains (lit "GENERIC_NETWORK")
  let hasOfflineLib := offStats.persistence
  let d := readinessDecision (highRiskCount fileSignals configSignals allDeps)
    (mediumRiskCount fileSignals configSignals allDeps) hasGenericNetwork hasOfflineLib
    allDeps.length offStats.persistence
  { evidence := findings ++ d.extraEvidence, score := d.score,
    architecture := d.architecture,
    offline := { status := offPair.1, reason := offPair.2, evidence := offlineSignals } }

/-- Project metadata as returned by the providers. -/
structure ProjectInfo where
  full_name : Str
  default_branch : Option Str
  rateLimited : Bool
deriving DecidableEq

/-- Result of getTree: a listing, a JS-null, or the online rate-limit marker
object (the local provider always returns a listing). -/
inductive TreeFetch where
  | missing : TreeFetch
  | limited : TreeFetch
  | ok : List TreeEntry → TreeFetch

inductive CtxType where
  | online : CtxType
  | offline : CtxType
deriving DecidableEq

/-- The final report object. -/
structure Report where
  repoInfo : ProjectInfo
  evidence : List Finding
  architecture : Str
  score : Option Level
  offline : OfflineResult
  timestamp : Str
  limitations : List Str
deriving DecidableEq

/-- The whole run (AnalyzerService._runAnalysis) after the provider calls have
settled: the tree result and a path-to-content store stand for the Content
Source; the timestamp input stands for new Date().toISOString().  Branch
selection only affects which remote snapshot the store models, so it does not
appear separately. -/
def fetchPlan (tree : List TreeEntry) (rateLimited : Bool) (pfx : Str) : List FetchItem :=
  criticalPlan tree rateLimited pfx ++
    (pkgJsonPaths tree pfx).map (fun p => { name := p, ftype := lit "monorepo-dep" }) ++
    (sourceFiles tree pfx).map (fun p => { name := p, ftype := lit "code-scan" })

/-- The getFile helper (analyzer lines 107-115): skip the fetch when the tree
is trusted and the path absent, otherwise read from the content store. -/
def getFileRes (tree : List TreeEntry) (rateLimited : Bool) (pfx : Str)
    (store : List (Str × Str)) (path : Str) : Option Str :=
  let target := pfx ++ path
  if !(tree.any (fun f => f.path == target)) && !rateLimited then none
  else (store.find? (fun kv => kv.1 == target)).map (fun kv => kv.2)

/-- The settled, non-null fetch results in plan order (Promise.allSettled keeps
the order the promises were queued in). -/
def fetchResults (tree : List TreeEntry) (rateLimited : Bool) (pfx : Str)
    (store : List (Str × Str)) : List (FetchItem × Str) :=
  (fetchPlan tree rateLimited pfx).filterMap
    (fun it => (getFileRes tree rateLimited pfx store it.name).map (fun c => (it, c)))

/-- The accumulated scan state of one run: structure hints first, then every
settled fetch result in order. -/
def runState (tree : List TreeEntry) (rateLimited : Bool) (pfx : Str)
    (store : List (Str × Str)) : ScanState :=
  (fetchResults tree rateLimited pfx store).foldl
    (fun s rc => processItem s rc.1.name rc.1.ftype rc.2)
    (structScan tree { allDeps := [], fileSignals := [], offlineSignals := [], configSignals := [] })

def runAnalysis (projectInfo : ProjectInfo) (ctx : CtxType) (treeRes : TreeFetch)
    (store : List (Str × Str)) (timestamp : Str) : Report :=
  let treeUnavailable :=
    match treeRes with
    | TreeFetch.missing => true
    | TreeFetch.limited => ctx == CtxType.online
    | TreeFetch.ok _ => false
  let rateLimited := projectInfo.rateLimited || treeUnavailable
  let tree := match treeRes with
    | TreeFetch.ok entries => entries
    | _ => []
  let pfx := computePathPfx tree
  let limitations0 :=
    [if ctx == CtxType.online then lit "Tree-Based Network analysis."
     else lit "Recursive Local analysis."]
  let limitations :=
    if rateLimited then
      limitations0 ++ [lit "GitHub API Rate Limit active. Switching to limited Blind Scan."]
    else if !pfx.isEmpty then limitations0 ++ [lit "Auto-unwrapped folder: " ++ pfx]
    else limitations0
  let st := runState tree rateLimited pfx store
  let out := classifyCore st.fileSignals st.configSignals st.allDeps st.offlineSignals
  { repoInfo := projectInfo, evidence := out.evidence, architecture := out.architecture,
    score := out.score, offline := out.offline, timestamp := timestamp,
    limitations := limitations }

/-! Helper lemmas shared by the claim theorems. -/

theorem count_pos_of_mem_filter {α : Type} {l : List α} {p : α → Bool} {x : α}
    (hx : x ∈ l) (hp : p x = true) : 0 < (l.filter p).length :=
  List.length_pos.mpr (List.ne_nil_of_mem (List.mem_filter.mpr ⟨hx, hp⟩))

theorem mem_buildFindings {fs cs : List Sig} {deps : List Str} {f : Finding}
    (hf : f ∈ buildFindings fs cs deps) :
    (∃ s ∈ fs, f = sigToFinding (lit "Code/Structure") s) ∨
    (∃ s ∈ cs, f = sigToFinding (lit "Config") s) ∨ f ∈ depFindings deps := by
  unfold buildFindings at hf
  rcases List.mem_append.mp hf with h1 | h2
  · rcases List.mem_append.mp h1 with ha | hb
    · obtain ⟨s, hs, heq⟩ := List.mem_map.mp ha
      exact Or.inl ⟨s, hs, heq.symm⟩
    · obtain ⟨s, hs, heq⟩ := List.mem_map.mp hb
      exact Or.inr (Or.inl ⟨s, hs, heq.symm⟩)
  · exact Or.inr (Or.inr h2)

theorem depFindings_risk {deps : List Str} {f : Finding} (hf : f ∈ depFindings deps) :
    ∃ d ∈ deps, ∃ rule, RISKS d = some rule ∧ f.risk = rule.riskLevel := by
  unfold depFindings at hf
  obtain ⟨d, hd, hsome⟩ := List.mem_filterMap.mp hf
  obtain ⟨rule, hrule, heq⟩ := Option.map_eq_some'.mp hsome
  exact ⟨d, hd, rule, hrule, by rw [← heq]; rfl⟩

theorem high_count_pos_of_high_finding {fs cs : List Sig} {deps : List Str} {f : Finding}
    (hf : f ∈ buildFindings fs cs deps) (hr : f.risk = lit "High") :
    0 < highRiskCount fs cs deps := by
  rcases mem_buildFindings hf with ⟨s, hs, rfl⟩ | ⟨s, hs, rfl⟩ | hd
  · have : 0 < fileHighCount fs := by
      refine count_pos_of_mem_filter hs ?_
      simp only [sigToFinding] at hr
      simp [hr]
    unfold highRiskCount; omega
  · have : 0 < configHighCount cs := by
      refine count_pos_of_mem_filter hs ?_
      simp only [sigToFinding] at hr
      simp [hr]
    unfold highRiskCount; omega
  · have : 0 < depHighCount deps := by
      unfold depHighCount
      exact count_pos_of_mem_filter hd (by simp [hr])
    unfold highRiskCount; omega

theorem extra_risk_eq_medium {hc mc : Nat} {g hol : Bool} {sz : Nat} {p : Bool} {f : Finding}
    (hf : f ∈ (readinessDecision hc mc g hol sz p).extraEvidence) : f.risk = lit "Medium" := by
  unfold readinessDecision at hf
  split at hf
  · simp at hf
  · split at hf
    · simp at hf
    · split at hf
      · split at hf
        · simp at hf
        · simp at hf
          subst hf
          rfl
      · split at hf <;> simp at hf

theorem decision_high (hc mc : Nat) (g hol : Bool) (sz : Nat) (p : Bool) (h : 0 < hc) :
    readinessDecision hc mc g hol sz p =
      { score := READINESS_LEVELS "LOW",
        architecture := lit "Centralized / Server-Required", extraEvidence := [] } := by
  unfold readinessDecision
  rw [if_pos h]

theorem classify_offline_status_def (fs cs : List Sig) (deps : List Str)
    (offSigs : List OffSig) :
    (classifyCore fs cs deps offSigs).offline.status =
      (offlineDecision (buildFindings fs cs deps) (computeOffStats offSigs deps)).1 := rfl

theorem classify_evidence_def (fs cs : List Sig) (deps : List Str) (offSigs : List OffSig) :
    (classifyCore fs cs deps offSigs).evidence =
      buildFindings fs cs deps ++
        (readinessDecision (highRiskCount fs cs deps) (mediumRiskCount fs cs deps)
          (deps.contains (lit "GENERIC_NETWORK")) (computeOffStats offSigs deps).persistence
          deps.length (computeOffStats offSigs deps).persistence).extraEvidence := rfl

theorem classify_score_low {fs cs : List Sig} {deps : List Str} {offSigs : List OffSig}
    (h : 0 < highRiskCount fs cs deps) :
    (classifyCore fs cs deps offSigs).score = READINESS_LEVELS "LOW" ∧
    (classifyCore fs cs deps offSigs).architecture = lit "Centralized / Server-Required" := by
  have hd := decision_high (highRiskCount fs cs deps) (mediumRiskCount fs cs deps)
    (deps.contains (lit "GENERIC_NETWORK")) (computeOffStats offSigs deps).persistence
    deps.length (computeOffStats offSigs deps).persistence h
  refine ⟨?_, ?_⟩
  · show (readinessDecision (highRiskCount fs cs deps) (mediumRiskCount fs cs deps)
      (deps.contains (lit "GENERIC_NETWORK")) (computeOffStats offSigs deps).persistence
      deps.length (computeOffStats offSigs deps).persistence).score = READINESS_LEVELS "LOW"
    rw [hd]
  · show (readinessDecision (highRiskCount fs cs deps) (mediumRiskCount fs cs deps)
      (deps.contains (lit "GENERIC_NETWORK")) (computeOffStats offSigs deps).persistence
      deps.length (computeOffStats offSigs deps).persistence).architecture =
        lit "Centralized / Server-Required"
    rw [hd]

theorem offline_status_online_only {findings : List Finding} {os : OffStats} {f : Finding}
    (hmem : f ∈ findings)
    (hf : f.risk = lit "High" ∨ f.category = lit "Critical Infrastructure") :
    (offlineDecision findings os).1 = lit "Online-Only" := by
  have hb : findings.any (fun f =>
      f.category == lit "Critical Infrastructure" || f.risk == lit "High") = true :=
    List.any_eq_true.mpr ⟨f, hmem, by rcases hf with h | h <;> simp [h]⟩
  unfold offlineDecision
  simp [hb]

/-- C7: for a non-empty tree whose first path contains a separator, pathPrefix
equals the candidate (first segment plus slash) exactly when every entry path
starts with it, and is empty otherwise; without a separator in the first path
it is always empty, so normalization is a no-op when no common leading segment
exists. -/
theorem C7_path_normalization (first : TreeEntry) (rest : List TreeEntry) :
    (('/' ∈ first.path) →
      ((computePathPfx (first :: rest) =
          first.path.takeWhile (fun c => c ≠ '/') ++ ['/']) ↔
        (∀ e ∈ first :: rest,
          (first.path.takeWhile (fun c => c ≠ '/') ++ ['/']) <+: e.path))) ∧
    (('/' ∈ first.path) →
      ¬(∀ e ∈ first :: rest,
          (first.path.takeWhile (fun c => c ≠ '/') ++ ['/']) <+: e.path) →
      computePathPfx (first :: rest) = []) ∧
    (('/' ∉ first.path) → computePathPfx (first :: rest) = []) := by
  refine ⟨?_, ?_, ?_⟩
  case refine_2 =>
    intro hm hnall
    show (if '/' ∈ first.path then
        if (first :: rest).all (fun f =>
            (first.path.takeWhile (fun c => c ≠ '/') ++ ['/']).isPrefixOf f.path) then
          first.path.takeWhile (fun c => c ≠ '/') ++ ['/']
        else []
      else []) = []
    rw [if_pos hm, if_neg ?hna]
    case hna =>
      intro hall
      exact hnall fun e he => List.isPrefixOf_iff_prefix.mp ((List.all_eq_true.mp hall) e he)
  · intro hm
    show (if '/' ∈ first.path then
        if (first :: rest).all (fun f =>
            (first.path.takeWhile (fun c => c ≠ '/') ++ ['/']).isPrefixOf f.path) then
          first.path.takeWhile (fun c => c ≠ '/') ++ ['/']
        else []
      else []) = _ ↔ _
    rw [if_pos hm]
    by_cases hall : (first :: rest).all (fun f =>
        (first.path.takeWhile (fun c => c ≠ '/') ++ ['/']).isPrefixOf f.path) = true
    · rw [if_pos hall]
      constructor
      · intro _ e he
        exact List.isPrefixOf_iff_prefix.mp ((List.all_eq_true.mp hall) e he)
      · intro _
        rfl
    · rw [if_neg hall]
      constructor
      · intro h
        exact absurd h.symm (by simp)
      · intro hf
        exact absurd
          (List.all_eq_true.mpr fun e he => List.isPrefixOf_iff_prefix.mpr (hf e he)) hall
  · intro hm
    show (if '/' ∈ first.path then _ else ([] : Str)) = _
    rw [if_neg hm]

/-- Witness for C7 at a concrete two-entry tree sharing the prefix root/. -/
theorem C7_path_normalization_w :
    computePathPfx
        [{ path := lit "root/a.js", type := lit "file" },
         { path := lit "root/b/c.js", type := lit "file" }] =
      (lit "root/a.js").takeWhile (fun c => c ≠ '/') ++ ['/'] :=
  ((C7_path_normalization { path := lit "root/a.js", type := lit "file" }
      [{ path := lit "root/b/c.js", type := lit "file" }]).1 (by decide)).mpr (by decide)

/-- C8: the fetch planner caps nested manifests at 15 and source samples at 20,
excludes node_modules, test and example directories from the manifests, sorts
source candidates shortest path first, and excludes node_modules, dist and
build from the samples. -/
theorem C8_bounded_samples (tree : List TreeEntry) (pfx : Str) :
    (pkgJsonPaths tree pfx).length ≤ 15 ∧
    (∀ f ∈ pkgJsonCandidates tree pfx,
      hasSubstr (lit "node_modules") f.path = false ∧
      hasSubstr (lit "test") f.path = false ∧
      hasSubstr (lit "example") f.path = false) ∧
    (sourceFiles tree pfx).length ≤ 20 ∧
    List.Sorted byPathLen ((sourceSorted tree).take 20) ∧
    (∀ a ∈ (sourceSorted tree).take 20, ∀ b ∈ (sourceSorted tree).drop 20, byPathLen a b) ∧
    (∀ f ∈ sourceCandidates tree,
      hasSubstr (lit "node_modules") f.path = false ∧
      hasSubstr (lit "dist") f.path = false ∧
      hasSubstr (lit "build") f.path = false) := by
  refine ⟨?_, ?_, ?_, ?_, ?_, ?_⟩
  · exact List.length_take_le _ _
  · intro f hf
    have h2 := (List.mem_filter.mp hf).2
    simp only [Bool.and_eq_true, Bool.not_eq_true'] at h2
    exact ⟨h2.1.1, h2.1.2, h2.2⟩
  · unfold sourceFiles
    rw [List.length_map]
    exact List.length_take_le _ _
  · exact List.Pairwise.sublist (List.take_sublist _ _)
      (List.sorted_insertionSort byPathLen (sourceCandidates tree))
  · intro a ha b hb
    exact (List.sorted_insertionSort byPathLen (sourceCandidates tree)).rel_of_mem_take_of_mem_drop ha hb
  · intro f hf
    have h2 := (List.mem_filter.mp hf).2
    simp only [Bool.and_eq_true, Bool.not_eq_true'] at h2
    exact ⟨h2.1.1, h2.1.2, h2.2⟩

/-- Witness for C8 at a concrete tree with a nested manifest and two source files. -/
theorem C8_bounded_samples_w :
    (pkgJsonPaths
        [{ path := lit "pkgs/a/package.json", type := lit "file" },
         { path := lit "a.js", type := lit "file" },
         { path := lit "src/b.ts", type := lit "file" }] []).length ≤ 15 ∧
    (∀ f ∈ pkgJsonCandidates
        [{ path := lit "pkgs/a/package.json", type := lit "file" },
         { path := lit "a.js", type := lit "file" },
         { path := lit "src/b.ts", type := lit "file" }] [],
      hasSubstr (lit "node_modules") f.path = false ∧
      hasSubstr (lit "test") f.path = false ∧
      hasSubstr (lit "example") f.path = false) ∧
    (sourceFiles
        [{ path := lit "pkgs/a/package.json", type := lit "file" },
         { path := lit "a.js", type := lit "file" },
         { path := lit "src/b.ts", type := lit "file" }] []).length ≤ 20 ∧
    List.Sorted byPathLen ((sourceSorted
        [{ path := lit "pkgs/a/package.json", type := lit "file" },
         { path := lit "a.js", type := lit "file" },
         { path := lit "src/b.ts", type := lit "file" }]).take 20) ∧
    (∀ a ∈ (sourceSorted
        [{ path := lit "pkgs/a/package.json", type := lit "file" },
         { path := lit "a.js", type := lit "file" },
         { path := lit "src/b.ts", type := lit "file" }]).take 20,
      ∀ b ∈ (sourceSorted
        [{ path := lit "pkgs/a/package.json", type := lit "file" },
         { path := lit "a.js", type := lit "file" },
         { path := lit "src/b.ts", type := lit "file" }]).drop 20, byPathLen a b) ∧
    (∀ f ∈ sourceCandidates
        [{ path := lit "pkgs/a/package.json", type := lit "file" },
         { path := lit "a.js", type := lit "file" },
         { path := lit "src/b.ts", type := lit "file" }],
      hasSubstr (lit "node_modules") f.path = false ∧
      hasSubstr (lit "dist") f.path = false ∧
      hasSubstr (lit "build") f.path = false) :=
  C8_bounded_samples
    [{ path := lit "pkgs/a/package.json", type := lit "file" },
     { path := lit "a.js", type := lit "file" },
     { path := lit "src/b.ts", type := lit "file" }] []

/-- Concrete project metadata used by the evaluation theorems. -/
def demoInfo : ProjectInfo :=
  { full_name := lit "owner/repo", default_branch := some (lit "main"), rateLimited := false }

/-- Concrete one-file tree used by the evaluation theorems. -/
def demoTree : List TreeEntry := [{ path := lit "app.js", type := lit "file" }]

/-- C6 (amended): with the tree snapshot, the contents and the flags fixed, two
runs agree on every report field except the timestamp, which is exactly the
run-time input; the analysis itself is a pure function of its inputs. -/
theorem C6_deterministic_except_timestamp (info : ProjectInfo) (ctx : CtxType)
    (treeRes : TreeFetch) (store : List (Str × Str)) (t1 t2 : Str) :
    (runAnalysis info ctx treeRes store t1).evidence =
      (runAnalysis info ctx treeRes store t2).evidence ∧
    (runAnalysis info ctx treeRes store t1).score =
      (runAnalysis info ctx treeRes store t2).score ∧
    (runAnalysis info ctx treeRes store t1).architecture =
      (runAnalysis info ctx treeRes store t2).architecture ∧
    (runAnalysis info ctx treeRes store t1).offline =
      (runAnalysis info ctx treeRes store t2).offline ∧
    (runAnalysis info ctx treeRes store t1).limitations =
      (runAnalysis info ctx treeRes store t2).limitations ∧
    (runAnalysis info ctx treeRes store t1).repoInfo =
      (runAnalysis info ctx treeRes store t2).repoInfo ∧
    (runAnalysis info ctx treeRes store t1).timestamp = t1 :=
  ⟨rfl, rfl, rfl, rfl, rfl, rfl, rfl⟩

/-- C6 counterexample: the report embeds new Date().toISOString(), so two runs
of the very same snapshot at different instants are not byte-identical. -/
theorem C6_timestamp_breaks_byte_identity :
    runAnalysis demoInfo CtxType.online (TreeFetch.ok demoTree) []
        (lit "2024-01-01T00:00:00.000Z") ≠
      runAnalysis demoInfo CtxType.online (TreeFetch.ok demoTree) []
        (lit "2024-01-01T00:00:01.000Z") := by
  intro h
  exact absurd (congrArg Report.timestamp h) (by decide)

/-- C1: whenever the produced evidence set contains a High-risk item, the
readiness verdict is Low (Centralized / Server-Required), whatever the other
signals, dependencies and offline tallies are. -/
theorem C1_high_evidence_forces_low (fs cs : List Sig) (deps : List Str)
    (offSigs : List OffSig)
    (h : ∃ f ∈ (classifyCore fs cs deps offSigs).evidence, f.risk = lit "High") :
    (classifyCore fs cs deps offSigs).score = READINESS_LEVELS "LOW" ∧
    (classifyCore fs cs deps offSigs).architecture = lit "Centralized / Server-Required" := by
  obtain ⟨f, hf, hr⟩ := h
  rw [classify_evidence_def] at hf
  rcases List.mem_append.mp hf with hin | hex
  · exact classify_score_low (high_count_pos_of_high_finding hin hr)
  · have := extra_risk_eq_medium hex
    rw [this] at hr
    exact absurd hr (by decide)

/-- Witness for C1: a single High-risk firebase dependency forces the Low verdict. -/
theorem C1_high_evidence_forces_low_w :
    (classifyCore [] [] [lit "firebase"] []).score = READINESS_LEVELS "LOW" ∧
    (classifyCore [] [] [lit "firebase"] []).architecture =
      lit "Centralized / Server-Required" :=
  C1_high_evidence_forces_low [] [] [lit "firebase"] [] (by decide)

/-- C5: appending a High-risk evidence item - as an extractor signal in either
signal list, or as a dependency whose rule is High - always drives the verdict
to Low and the offline tier to Online-Only, for every starting evidence set. -/
theorem C5_high_risk_veto_monotone (fs cs : List Sig) (deps : List Str)
    (offSigs : List OffSig) (e : Sig) (d : Str)
    (he : e.risk = lit "High")
    (hd : (RISKS d).map RiskRule.riskLevel = some (lit "High")) :
    ((classifyCore fs (cs ++ [e]) deps offSigs).score = READINESS_LEVELS "LOW" ∧
      (classifyCore fs (cs ++ [e]) deps offSigs).offline.status = lit "Online-Only") ∧
    ((classifyCore (fs ++ [e]) cs deps offSigs).score = READINESS_LEVELS "LOW" ∧
      (classifyCore (fs ++ [e]) cs deps offSigs).offline.status = lit "Online-Only") ∧
    ((classifyCore fs cs (deps ++ [d]) offSigs).score = READINESS_LEVELS "LOW" ∧
      (classifyCore fs cs (deps ++ [d]) offSigs).offline.status = lit "Online-Only") := by
  have hecs : e ∈ cs ++ [e] := List.mem_append_right cs (List.mem_singleton.mpr rfl)
  have hefs : e ∈ fs ++ [e] := List.mem_append_right fs (List.mem_singleton.mpr rfl)
  obtain ⟨rule, hrule, hrisk⟩ := Option.map_eq_some'.mp hd
  have hdm : d ∈ deps ++ [d] := List.mem_append_right deps (List.mem_singleton.mpr rfl)
  have hdf : mkDepFinding d rule ∈ depFindings (deps ++ [d]) := by
    unfold depFindings
    exact List.mem_filterMap.mpr ⟨d, hdm, by rw [hrule]; rfl⟩
  refine ⟨⟨?_, ?_⟩, ⟨?_, ?_⟩, ⟨?_, ?_⟩⟩
  · refine (classify_score_low ?_).1
    have : 0 < configHighCount (cs ++ [e]) := count_pos_of_mem_filter hecs (by simp [he])
    unfold highRiskCount
    omega
  · rw [classify_offline_status_def]
    refine offline_status_online_only (f := sigToFinding (lit "Config") e) ?_ ?_
    · unfold buildFindings
      exact List.mem_append_left _ (List.mem_append_right _ (List.mem_map_of_mem _ hecs))
    · exact Or.inl he
  · refine (classify_score_low ?_).1
    have : 0 < fileHighCount (fs ++ [e]) := count_pos_of_mem_filter hefs (by simp [he])
    unfold highRiskCount
    omega
  · rw [classify_offline_status_def]
    refine offline_status_online_only (f := sigToFinding (lit "Code/Structure") e) ?_ ?_
    · unfold buildFindings
      exact List.mem_append_left _ (List.mem_append_left _ (List.mem_map_of_mem _ hefs))
    · exact Or.inl he
  · refine (classify_score_low ?_).1
    have : 0 < depHighCount (deps ++ [d]) := by
      unfold depHighCount
      exact count_pos_of_mem_filter hdf (by simp [mkDepFinding, hrisk])
    unfold highRiskCount
    omega
  · rw [classify_offline_status_def]
    refine offline_status_online_only (f := mkDepFinding d rule) ?_ ?_
    · unfold buildFindings
      exact List.mem_append_right _ hdf
    · exact Or.inl (by simpa [mkDepFinding] using hrisk)

/-- C9: without any Critical Infrastructure or High-risk evidence, a true
persistence tally alone already yields the Offline-Capable status; no caching
or native-shell signal is needed. -/
theorem C9_persistence_alone_offline_capable (fs cs : List Sig) (deps : List Str)
    (offSigs : List OffSig)
    (hper : (computeOffStats offSigs deps).persistence = true)
    (hno : ∀ f ∈ (classifyCore fs cs deps offSigs).evidence,
      ¬(f.category = lit "Critical Infrastructure" ∨ f.risk = lit "High")) :
    (classifyCore fs cs deps offSigs).offline.status = lit "Offline-Capable" := by
  have hb : (buildFindings fs cs deps).any (fun f =>
      f.category == lit "Critical Infrastructure" || f.risk == lit "High") = false := by
    rw [List.any_eq_false]
    intro f hf
    have hm : f ∈ (classifyCore fs cs deps offSigs).evidence := by
      rw [classify_evidence_def]
      exact List.mem_append_left _ hf
    have hn := hno f hm
    simp only [Bool.or_eq_true, beq_iff_eq]
    exact hn
  rw [classify_offline_status_def]
  unfold offlineDecision
  simp [hb, hper]

/-- A concrete persistence signal for the C9 witness. -/
def demoOffSig : OffSig :=
  { file := lit "app.js", category := lit "PERSISTENCE",
    signal := lit "Detected localforage", line := some 1 }

/-- Witness for C9: one persistence signal, no evidence at all. -/
theorem C9_persistence_alone_offline_capable_w :
    (computeOffStats [demoOffSig] []).persistence = true ∧
    (classifyCore [] [] [] [demoOffSig]).offline.status = lit "Offline-Capable" :=
  ⟨by decide, C9_persistence_alone_offline_capable [] [] [] [demoOffSig]
    (by decide) (by decide)⟩

/-- A concrete High-risk extractor signal for the C5 witness. -/
def highSig : Sig :=
  { signal := lit "Found manage.py", risk := lit "High",
    category := lit "Traditional Server", reason := lit "Django Project Structure",
    file := lit "manage.py", line := none }

/-- Witness for C5 at the empty evidence set, adding a High signal and the
High-risk firebase dependency. -/
theorem C5_high_risk_veto_monotone_w :
    (((classifyCore [] ([] ++ [highSig]) [] []).score = READINESS_LEVELS "LOW" ∧
      (classifyCore [] ([] ++ [highSig]) [] []).offline.status = lit "Online-Only") ∧
    ((classifyCore ([] ++ [highSig]) [] [] []).score = READINESS_LEVELS "LOW" ∧
      (classifyCore ([] ++ [highSig]) [] [] []).offline.status = lit "Online-Only") ∧
    ((classifyCore [] [] ([] ++ [lit "firebase"]) []).score = READINESS_LEVELS "LOW" ∧
      (classifyCore [] [] ([] ++ [lit "firebase"]) []).offline.status = lit "Online-Only")) :=
  C5_high_risk_veto_monotone [] [] [] [] highSig (lit "firebase") (by decide) (by decide)

/-- A run whose single sampled source file only contains a generic network call. -/
def genericOnlyReport : Report :=
  runAnalysis demoInfo CtxType.online (TreeFetch.ok demoTree)
    [(lit "app.js", lit "fetch(x)")] (lit "2024-01-01T00:00:00.000Z")

/-- The same run with a local-persistence library mentioned next to the call. -/
def genericPersistReport : Report :=
  runAnalysis demoInfo CtxType.online (TreeFetch.ok demoTree)
    [(lit "app.js", lit "fetch(x); localforage.setItem(k,v)")] (lit "2024-01-01T00:00:00.000Z")

/-- C2 (code bug): a run whose only match is the generic-network pattern, with
no persistence and no other evidence, ends Medium (Hybrid) with no
Analyzer-sourced item: the rule-table entry for GENERIC_NETWORK is counted as
Medium by the dependency loop, so the ambiguity branch is never reached. -/
theorem C2_generic_only_run_yields_medium :
    genericOnlyReport.score = READINESS_LEVELS "MEDIUM" ∧
    genericOnlyReport.architecture = lit "Hybrid (Client + Services)" ∧
    genericOnlyReport.evidence.filter (fun f => f.source == lit "Analyzer") = [] ∧
    genericOnlyReport.evidence.map Finding.signal =
      [lit "Generic Network Call", lit "Dep: GENERIC_NETWORK"] := by
  refine ⟨by decide, by decide, by decide, by decide⟩

/-- C3 (code bug): READINESS_LEVELS defines only HIGH, MEDIUM, LOW and UNKNOWN;
the branch that should assign the HumanReview verdict reads the undefined
member HUMAN_REVIEW, so it assigns undefined (none), not a defined value. -/
theorem C3_humanReview_level_is_undefined :
    READINESS_LEVELS "HUMAN_REVIEW" = none ∧
    (readinessDecision 0 0 true false 1 false).score = none ∧
    (readinessDecision 0 0 true false 1 false).architecture =
      lit "Ambiguous (Unidentified Network Calls)" ∧
    (READINESS_LEVELS "LOW").isSome = true ∧
    (READINESS_LEVELS "MEDIUM").isSome = true ∧
    (READINESS_LEVELS "HIGH").isSome = true ∧
    (READINESS_LEVELS "UNKNOWN").isSome = true := by
  refine ⟨by decide, by decide, by decide, by decide, by decide, by decide, by decide⟩

/-- C4 (code bug): with the generic-network pattern as the only centralization
signal and persistence present, the run still classifies Medium (Hybrid), not
High / Local-First with Sync: the GENERIC_NETWORK rule-table entry trips the
Medium branch first.  The offline tier is Offline-Capable as specified. -/
theorem C4_generic_with_persistence_run :
    genericPersistReport.score = READINESS_LEVELS "MEDIUM" ∧
    ¬(genericPersistReport.score = READINESS_LEVELS "HIGH") ∧
    ¬(genericPersistReport.score = READINESS_LEVELS "LOW") ∧
    genericPersistReport.offline.status = lit "Offline-Capable" ∧
    genericPersistReport.architecture = lit "Hybrid (Client + Services)" := by
  refine ⟨by decide, by decide, by decide, by decide, by decide⟩

theorem addDep_fileSignals (st : ScanState) (d : Str) :
    (addDep st d).fileSignals = st.fileSignals := by
  unfold addDep
  split <;> rfl

theorem addDep_offlineSignals (st : ScanState) (d : Str) :
    (addDep st d).offlineSignals = st.offlineSignals := by
  unfold addDep
  split <;> rfl

theorem foldl_addDep_fileSignals (l : List Str) (st : ScanState) :
    (l.foldl addDep st).fileSignals = st.fileSignals := by
  induction l generalizing st with
  | nil => rfl
  | cons d rest ih => rw [List.foldl_cons, ih, addDep_fileSignals]

theorem foldl_addDep_offlineSignals (l : List Str) (st : ScanState) :
    (l.foldl addDep st).offlineSignals = st.offlineSignals := by
  induction l generalizing st with
  | nil => rfl
  | cons d rest ih => rw [List.foldl_cons, ih, addDep_offlineSignals]

theorem processDepPart_eq_foldl (st : ScanState) (name ftype content : Str) :
    ∃ l : List Str, processDepPart st name ftype content = l.foldl addDep st := by
  unfold processDepPart
  split
  · split
    · split
      · split
        · dsimp only
          split
          · exact ⟨_ ++ [lit "OFFLINE_NATIVE"], by rw [List.foldl_append]; rfl⟩
          · exact ⟨_, rfl⟩
        · exact ⟨_, rfl⟩
      · exact ⟨_, rfl⟩
    · exact ⟨[], rfl⟩
  · exact ⟨[], rfl⟩

theorem processConfigPart_signals (st : ScanState) (name ftype : Str) :
    (processConfigPart st name ftype).fileSignals = st.fileSignals ∧
    (processConfigPart st name ftype).offlineSignals = st.offlineSignals := by
  unfold processConfigPart
  split
  · constructor <;>
    · split <;> split <;>
        simp [addDep_fileSignals, addDep_offlineSignals]
  · exact ⟨rfl, rfl⟩

theorem processCodePart_not_codescan (st : ScanState) (name ftype content : Str)
    (h : (ftype == lit "code-scan") = false) :
    processCodePart st name ftype content = st := by
  unfold processCodePart
  simp [h]

theorem processItem_not_codescan (st : ScanState) (name ftype content : Str)
    (h : (ftype == lit "code-scan") = false) :
    (processItem st name ftype content).fileSignals = st.fileSignals ∧
    (processItem st name ftype content).offlineSignals = st.offlineSignals := by
  unfold processItem
  rw [processCodePart_not_codescan _ _ _ _ h]
  obtain ⟨l, hl⟩ := processDepPart_eq_foldl st name ftype content
  have hc := processConfigPart_signals (processDepPart st name ftype content) name ftype
  rw [hc.1, hc.2, hl, foldl_addDep_fileSignals, foldl_addDep_offlineSignals]
  exact ⟨rfl, rfl⟩

theorem foldl_processItem_not_codescan (results : List (FetchItem × Str)) (st : ScanState)
    (h : ∀ r ∈ results, (r.1.ftype == lit "code-scan") = false) :
    (results.foldl (fun s rc => processItem s rc.1.name rc.1.ftype rc.2) st).fileSignals =
      st.fileSignals ∧
    (results.foldl (fun s rc => processItem s rc.1.name rc.1.ftype rc.2) st).offlineSignals =
      st.offlineSignals := by
  induction results generalizing st with
  | nil => exact ⟨rfl, rfl⟩
  | cons r rest ih =>
    rw [List.foldl_cons]
    have hp := processItem_not_codescan st r.1.name r.1.ftype r.2 (h r (List.mem_cons_self _ _))
    have hrest := ih (processItem st r.1.name r.1.ftype r.2)
      (fun x hx => h x (List.mem_cons_of_mem _ hx))
    exact ⟨hrest.1.trans hp.1, hrest.2.trans hp.2⟩

theorem criticalPlan_not_codescan (tree : List TreeEntry) (rl : Bool) (pfx : Str) :
    ∀ it ∈ criticalPlan tree rl pfx, (it.ftype == lit "code-scan") = false := by
  intro it hit
  unfold criticalPlan at hit
  obtain ⟨f, _, heq⟩ := List.mem_map.mp hit
  rw [← heq]
  show ((if hostingConfigFiles.contains f = true then lit "config" else lit "dep") ==
    lit "code-scan") = false
  by_cases hc : hostingConfigFiles.contains f = true
  · rw [if_pos hc]
    decide
  · rw [if_neg hc]
    decide

theorem fetchPlan_empty_not_codescan (rl : Bool) (pfx : Str) :
    ∀ it ∈ fetchPlan [] rl pfx, (it.ftype == lit "code-scan") = false := by
  intro it hit
  unfold fetchPlan at hit
  rcases List.mem_append.mp hit with h1 | h2
  · rcases List.mem_append.mp h1 with ha | hb
    · exact criticalPlan_not_codescan [] rl pfx it ha
    · simp [pkgJsonPaths, pkgJsonCandidates] at hb
  · simp [sourceFiles, sourceSorted, sourceCandidates] at h2

theorem runState_empty_signals (rl : Bool) (pfx : Str) (store : List (Str × Str)) :
    (runState [] rl pfx store).fileSignals = [] ∧
    (runState [] rl pfx store).offlineSignals = [] := by
  unfold runState
  refine foldl_processItem_not_codescan _ _ ?_
  intro r hr
  unfold fetchResults at hr
  obtain ⟨it, hit, hsome⟩ := List.mem_filterMap.mp hr
  obtain ⟨c, _, heq⟩ := Option.map_eq_some'.mp hsome
  rw [← heq]
  exact fetchPlan_empty_not_codescan rl pfx it hit

theorem depFindings_source {deps : List Str} {f : Finding} (hf : f ∈ depFindings deps) :
    f.source = lit "Dependency" := by
  unfold depFindings at hf
  obtain ⟨d, _, hsome⟩ := List.mem_filterMap.mp hf
  obtain ⟨rule, _, heq⟩ := Option.map_eq_some'.mp hsome
  rw [← heq]
  rfl

/-- The rule-table record of the synthetic GENERIC_NETWORK key. -/
def gnRule : RiskRule :=
  (RISKS (lit "GENERIC_NETWORK")).getD ⟨[], [], [], [], []⟩

theorem genericNetwork_implies_medium (fs cs : List Sig) (deps : List Str)
    (h : deps.contains (lit "GENERIC_NETWORK") = true) : 0 < mediumRiskCount fs cs deps := by
  have hmem : lit "GENERIC_NETWORK" ∈ deps := by simpa using h
  have hdf : mkDepFinding (lit "GENERIC_NETWORK") gnRule ∈ depFindings deps := by
    unfold depFindings
    exact List.mem_filterMap.mpr ⟨lit "GENERIC_NETWORK", hmem, rfl⟩
  have hpos : 0 < depMediumCount deps := by
    unfold depMediumCount
    exact count_pos_of_mem_filter hdf (by decide)
  unfold mediumRiskCount
  omega

theorem decision_extra_nil (fs cs : List Sig) (deps : List Str) (hol : Bool) (sz : Nat)
    (p : Bool) :
    (readinessDecision (highRiskCount fs cs deps) (mediumRiskCount fs cs deps)
      (deps.contains (lit "GENERIC_NETWORK")) hol sz p).extraEvidence = [] := by
  by_cases h1 : 0 < highRiskCount fs cs deps
  · rw [decision_high _ _ _ _ _ _ h1]
  · by_cases h2 : 0 < mediumRiskCount fs cs deps
    · unfold readinessDecision
      rw [if_neg h1, if_pos h2]
    · have hg : deps.contains (lit "GENERIC_NETWORK") = false := by
        cases hcon : deps.contains (lit "GENERIC_NETWORK") with
        | false => rfl
        | true => exact absurd (genericNetwork_implies_medium fs cs deps hcon) h2
      unfold readinessDecision
      rw [if_neg h1, if_neg h2, hg]
      simp only [Bool.false_eq_true, if_false]
      split <;> rfl

/-- C10 counterexample: with a successfully fetched but empty listing and no
rate limiting, the planner issues no read at all - not the nine blind
candidates - even when the store does hold a root package.json. -/
theorem C10_empty_listing_plans_no_reads :
    fetchPlan [] false [] = [] ∧
    criticalFiles.length = 9 ∧
    fetchResults [] false [] [(lit "package.json", lit "x")] = [] := by
  refine ⟨by decide, by decide, by decide⟩

/-- C10 (amended): when the tree listing itself is unavailable (the run is
degraded and the tree falls back to empty), the plan is exactly the nine fixed
candidates in order, both bounded samples are empty, and every evidence item of
the run is Config- or Dependency-sourced, with no code-derived offline signal. -/
theorem C10_degraded_blind_scan (info : ProjectInfo) (ctx : CtxType)
    (store : List (Str × Str)) (t : Str) :
    (fetchPlan [] (info.rateLimited || true) []).map FetchItem.name = criticalFiles ∧
    (fetchPlan [] (info.rateLimited || true) []).length = 9 ∧
    pkgJsonPaths [] [] = [] ∧
    sourceFiles [] [] = [] ∧
    (runAnalysis info ctx TreeFetch.missing store t).offline.evidence = [] ∧
    (∀ f ∈ (runAnalysis info ctx TreeFetch.missing store t).evidence,
      f.source = lit "Config" ∨ f.source = lit "Dependency") ∧
    (runAnalysis info CtxType.online TreeFetch.limited store t).offline.evidence = [] ∧
    (∀ f ∈ (runAnalysis info CtxType.online TreeFetch.limited store t).evidence,
      f.source = lit "Config" ∨ f.source = lit "Dependency") := by
  refine ⟨?_, ?_, rfl, rfl, ?_, ?_, ?_, ?_⟩
  · rw [Bool.or_true]
    decide
  · rw [Bool.or_true]
    decide
  · show (runState [] (info.rateLimited || true) (computePathPfx []) store).offlineSignals = []
    exact (runState_empty_signals _ _ _).2
  · show ∀ f ∈ (classifyCore
        (runState [] (info.rateLimited || true) (computePathPfx []) store).fileSignals
        (runState [] (info.rateLimited || true) (computePathPfx []) store).configSignals
        (runState [] (info.rateLimited || true) (computePathPfx []) store).allDeps
        (runState [] (info.rateLimited || true) (computePathPfx []) store).offlineSignals).evidence,
      f.source = lit "Config" ∨ f.source = lit "Dependency"
    intro f hf
    rw [classify_evidence_def] at hf
    rcases List.mem_append.mp hf with hfin | hfex
    · have hS := runState_empty_signals (info.rateLimited || true) (computePathPfx []) store
      rcases mem_buildFindings hfin with ⟨s, hs, rfl⟩ | ⟨s, hs, rfl⟩ | hd
      · rw [hS.1] at hs
        simp at hs
      · exact Or.inl rfl
      · exact Or.inr (depFindings_source hd)
    · rw [decision_extra_nil] at hfex
      simp at hfex
  · show (runState [] (info.rateLimited || (CtxType.online == CtxType.online))
      (computePathPfx []) store).offlineSignals = []
    exact (runState_empty_signals _ _ _).2
  · show ∀ f ∈ (classifyCore
        (runState [] (info.rateLimited || (CtxType.online == CtxType.online))
          (computePathPfx []) store).fileSignals
        (runState [] (info.rateLimited || (CtxType.online == CtxType.online))
          (computePathPfx []) store).configSignals
        (runState [] (info.rateLimited || (CtxType.online == CtxType.online))
          (computePathPfx []) store).allDeps
        (runState [] (info.rateLimited || (CtxType.online == CtxType.online))
          (computePathPfx []) store).offlineSignals).evidence,
      f.source = lit "Config" ∨ f.source = lit "Dependency"
    intro f hf
    rw [classify_evidence_def] at hf
    rcases List.mem_append.mp hf with hfin | hfex
    · have hS := runState_empty_signals (info.rateLimited || (CtxType.online == CtxType.online))
        (computePathPfx []) store
      rcases mem_buildFindings hfin with ⟨s, hs, rfl⟩ | ⟨s, hs, rfl⟩ | hd
      · rw [hS.1] at hs
        simp at hs
      · exact Or.inl rfl
      · exact Or.inr (depFindings_source hd)
    · rw [decision_extra_nil] at hfex
      simp at hfex
